import Mathlib

/-!
Verification of the Jinja2Cpp core excerpt: the value model
(`include/jinja2cpp/value.h`) and the template driver
(`src/template_impl.h`).  Narrow and wide text widths are modelled as two
distinct string types; machine integers carried by values are modelled as
unbounded `Int` (the code never overflows them in the fragments at stake),
and fallible accesses (the `nonstd::get` calls that throw
`bad_variant_access`) are modelled with `Option`.
-/

namespace Jinja2

/-- The two character widths the engine instantiates (`char` / `wchar_t`). -/
inductive Width where
  | narrow
  | wide
deriving DecidableEq, Repr

/-- Wide text, kept as a distinct type from narrow `String` so that the two
widths cannot be silently confused; the payload is the character sequence. -/
structure WideString where
  chars : String
deriving DecidableEq, Repr

/-- The string type of a given width (`std::basic_string<CharT>`). -/
@[reducible] def Str : Width → Type
  | .narrow => String
  | .wide => WideString

/-- The empty string of a given width. -/
def strEmpty : (w : Width) → Str w
  | .narrow => ""
  | .wide => ⟨""⟩

/-- Appending to a `std::basic_string<CharT>` (`append`). -/
def strAppend : {w : Width} → Str w → Str w → Str w
  | .narrow, a, b => a ++ b
  | .wide, a, b => ⟨a.chars ++ b.chars⟩

/-- Modelled from the spec: the narrow/wide text adapter layer
(`ConvertString`, declared outside the excerpt) transcodes a string between
the two widths; per §6 and §9 of the spec the transcoding is lossless. -/
def ConvertString : {src : Width} → (dst : Width) → Str src → Str dst
  | .narrow, .narrow, s => s
  | .narrow, .wide, s => ⟨s⟩
  | .wide, .narrow, s => s.chars
  | .wide, .wide, s => s

mutual

/-- The tagged union `jinja2::Value::ValueData` (value.h, lines 177-191),
one constructor per variant, in declaration order.  The `RecWrapper`
indirections of the C++ union are transparent here (Lean inductives box
recursive arms themselves).  The `UserCallable` payload of the last variant
holds a host `std::function`, which cannot appear inside an inductive (its
argument bundle itself carries values); the union keeps the callable's
argument descriptors, and the full descriptor is the separate
`UserCallable` structure below. -/
inductive Value : Type where
  | empty : Value
  | vbool (b : Bool) : Value
  | vstring (s : String) : Value
  | vwstring (s : WideString) : Value
  | vstringview (s : String) : Value
  | vwstringview (s : WideString) : Value
  | vint (i : Int) : Value
  | vdouble (d : Float) : Value
  | vlist (l : List Value) : Value
  | vmap (m : List (String × Value)) : Value
  | vgenericList (gl : GenericList) : Value
  | vgenericMap (gm : GenericMap) : Value
  | vcallable (argsInfo : List ArgInfo) : Value

/-- Modelled from the spec: the host list capability of `GenericList`
(generic_list.h is not under src/); per §6 it provides a length (possibly
unknown) and element access by index. -/
inductive ListItemAccessor : Type where
  | mk (getSize : Option Nat) (getValueByIndex : Nat → Value) : ListItemAccessor

/-- Host-backed lazy list: an optional accessor capability (empty when
default constructed), mirroring `GenericMap` in value.h. -/
inductive GenericList : Type where
  | mk (accessor : Option ListItemAccessor) : GenericList

/-- The `MapItemAccessor` interface (value.h, lines 30-60): size, presence
test, retrieval by name, and key collection.  `GetSize` is a nullary
const method, modelled as the value it returns. -/
inductive MapItemAccessor : Type where
  | mk (getSize : Nat) (hasValue : String → Bool)
      (getValueByName : String → Value) (getKeys : List String) : MapItemAccessor

/-- `jinja2::GenericMap` (value.h, lines 70-139): holds an optional accessor
functional object (`m_accessor`), null when default constructed. -/
inductive GenericMap : Type where
  | mk (accessor : Option MapItemAccessor) : GenericMap

/-- `jinja2::ArgInfo` (value.h, lines 506-519): name, mandatory flag and
default value of one argument of a user-defined callable. -/
inductive ArgInfo : Type where
  | mk (paramName : String) (isMandatory : Bool) (defValue : Value) : ArgInfo

end

/-- `jinja2::ValuesMap`: `std::unordered_map<std::string, Value>`, modelled
as an association list with unique keys left implicit (lookup takes the
first hit, as `find` does). -/
def ValuesMap := List (String × Value)

/-- `jinja2::ValuesList`: `std::vector<Value>`. -/
def ValuesList := List Value

/-- Lookup in a `ValuesMap` (`args.find(paramName)`); `none` models the
`end()` iterator. -/
def mapFind : ValuesMap → String → Option Value
  | [], _ => none
  | (k, v) :: rest, name => if k = name then some v else mapFind rest name

def ListItemAccessor.getSize : ListItemAccessor → Option Nat
  | .mk s _ => s

def ListItemAccessor.getValueByIndex : ListItemAccessor → Nat → Value
  | .mk _ f, i => f i

def MapItemAccessor.getSize : MapItemAccessor → Nat
  | .mk s _ _ _ => s

def MapItemAccessor.hasValue : MapItemAccessor → String → Bool
  | .mk _ h _ _, n => h n

def MapItemAccessor.getValueByName : MapItemAccessor → String → Value
  | .mk _ _ g _, n => g n

def MapItemAccessor.getKeys : MapItemAccessor → List String
  | .mk _ _ _ k => k

def GenericMap.accessor : GenericMap → Option MapItemAccessor
  | .mk a => a

/-- The default-constructed `GenericMap` (value.h, line 74): no accessor. -/
def GenericMap.mkDefault : GenericMap := .mk none

/-- `GenericMap::HasValue` (value.h, lines 96-99):
`m_accessor ? m_accessor()->HasValue(name) : false`. -/
def GenericMap.HasValue (gm : GenericMap) (name : String) : Bool :=
  match gm.accessor with
  | some a => a.hasValue name
  | none => false

/-- `GenericMap::GetSize` (value.h, lines 114-117):
`m_accessor ? m_accessor()->GetSize() : 0`. -/
def GenericMap.GetSize (gm : GenericMap) : Nat :=
  match gm.accessor with
  | some a => a.getSize
  | none => 0

/-- `GenericMap::GetKeys` (value.h, lines 123-126):
`m_accessor ? m_accessor()->GetKeys() : std::vector<std::string>()`. -/
def GenericMap.GetKeys (gm : GenericMap) : List String :=
  match gm.accessor with
  | some a => a.getKeys
  | none => []

/-- `GenericMap::GetValueByName` (value.h, lines 593-596):
`m_accessor ? m_accessor()->GetValueByName(name) : Value()`. -/
def GenericMap.GetValueByName (gm : GenericMap) (name : String) : Value :=
  match gm.accessor with
  | some a => a.getValueByName name
  | none => Value.empty

/-- The documented contract of a `MapItemAccessor` implementation (value.h,
lines 46-53): `GetValueByName` returns the requested value, or an empty
`Value` if the item is absent (that is, when `HasValue` is false). -/
def MapItemAccessor.Conforms (a : MapItemAccessor) : Prop :=
  ∀ name, a.hasValue name = false → a.getValueByName name = Value.empty

def ArgInfo.paramName : ArgInfo → String
  | .mk n _ _ => n

def ArgInfo.isMandatory : ArgInfo → Bool
  | .mk _ m _ => m

def ArgInfo.defValue : ArgInfo → Value
  | .mk _ _ v => v

/-- `jinja2::UserCallableParams` (value.h, lines 478-498): the call-params
bundle the engine assembles for a host callable. -/
structure UserCallableParams where
  args : ValuesMap
  extraPosArgs : Value
  extraKwArgs : Value
  context : Value
  paramsParsed : Bool := false

/-- `UserCallableParams::operator[]` (value.h, lines 490-497): look the
name up in `args`; the `end()` case returns a default `Value()`. -/
def UserCallableParams.getParam (p : UserCallableParams) (name : String) : Value :=
  match mapFind p.args name with
  | none => Value.empty
  | some v => v

/-- `jinja2::UserCallable` (value.h, lines 575-581): the invocation
function plus the ordered argument descriptors. -/
structure UserCallable where
  callable : UserCallableParams → Value
  argsInfo : List ArgInfo

/-- `jinja2::EmptyValue` (value.h, lines 20-24): an empty struct whose
generic conversion `operator T() const` returns the value-initialized
`T\x7b\x7d`. -/
structure EmptyValue where

/-- The conversion `EmptyValue::operator T` (value.h, line 23):
value-initialization of `T` is modelled as the default element of the
target type. -/
def EmptyValue.convertTo (_ : EmptyValue) (T : Type) [Inhabited T] : T :=
  default

/-- `Value::isString` (value.h, lines 351-354). -/
def Value.isString : Value → Bool
  | .vstring _ => true
  | _ => false

/-- `Value::isList` (value.h, lines 407-410): true when the stored variant
is `RecWrapper<ValuesList>` or `GenericList`. -/
def Value.isList : Value → Bool
  | .vlist _ => true
  | .vgenericList _ => true
  | _ => false

/-- `Value::asList` (value.h, lines 429-432): `nonstd::get` on the
`RecWrapper<ValuesList>` arm; every other variant throws
`bad_variant_access`, modelled as `none`. -/
def Value.asList : Value → Option (List Value)
  | .vlist l => some l
  | _ => none

/-- `Value::isMap` (value.h, lines 434-437): true when the stored variant
is `RecWrapper<ValuesMap>` or `GenericMap`. -/
def Value.isMap : Value → Bool
  | .vmap _ => true
  | .vgenericMap _ => true
  | _ => false

/-- `Value::asMap` (value.h, lines 456-459): `nonstd::get` on the
`RecWrapper<ValuesMap>` arm; every other variant throws, modelled as
`none`. -/
def Value.asMap : Value → Option (List (String × Value))
  | .vmap m => some m
  | _ => none

/-- `Value::isEmpty` (value.h, lines 461-464). -/
def Value.isEmpty : Value → Bool
  | .empty => true
  | _ => false

/-- Modelled from the spec: the error-kind enumeration (error_info.h is not
under src/); §7 lists the kinds, and template_impl.h uses
`TemplateNotParsed`, `UnexpectedException` and `InvalidTemplateName`. -/
inductive ErrorCode where
  | TemplateNotParsed
  | UnexpectedException
  | InvalidTemplateName
  | TemplateNotFound
  | SyntaxError
  | UndefinedValue
  | UnknownFilter
  | UnknownTest
  | InvalidOperation
  | MissingArgument
  | LoaderError
  | ExtendsAfterContent
  | BlockRedefined
deriving DecidableEq, Repr

/-- A source location `{file, line, column}`; the file name is a narrow
`std::string` for both error widths (template_impl.h assigns
`srcLoc.fileName` from narrow literals and `m_templateName`). -/
structure SourceLocation where
  fileName : String
  line : Nat
  col : Nat
deriving DecidableEq, Repr

/-- Modelled from the spec: the error payload `ErrorInfoTpl<CharT>`
(error_info.h is not under src/); §6 fixes its fields as error code, source
location, location description (text of the payload width) and a list of
extra-param `Value`s, which matches the `Data` fields template_impl.h
fills (`code`, `srcLoc`, `locationDescr`, `extraParams`). -/
structure ErrorInfoTpl (w : Width) where
  code : ErrorCode
  srcLoc : SourceLocation
  locationDescr : Str w
  extraParams : List Value

/-- `ErrorConverter<ErrorInfoTpl<CharT1>, ErrorInfoTpl<CharT2>>::Convert`
(template_impl.h, lines 97-110): copy the code, the source location and
the extra params, transcode the location description to the destination
width.  The same-width specialization of the source (lines 112-119)
returns its argument unchanged; the identity theorem below shows this
generic form agrees with it. -/
def ErrorConverter.Convert (dst : Width) {src : Width}
    (srcError : ErrorInfoTpl src) : ErrorInfoTpl dst :=
  { code := srcError.code
    srcLoc := srcError.srcLoc
    locationDescr := ConvertString dst srcError.locationDescr
    extraParams := srcError.extraParams }

/-- Modelled from the spec: the outcome of one walk of the renderer tree
(renderer.h is not under src/).  Per §7, a render either completes, raises
an engine error object (narrow or wide, thrown by `ThrowRuntimeError` and
by nested templates of either width), or lets an unexpected host exception
escape a callable, of which only the message (`ex.what()`) is observable. -/
inductive RenderOutcome where
  | ok
  | engineErrorN (e : ErrorInfoTpl .narrow)
  | engineErrorW (e : ErrorInfoTpl .wide)
  | hostException (msg : String)

/-- Modelled from the spec: a compiled renderer (renderer.h is not under
src/).  Per §4.6 and §5 it walks the node tree against the parameters,
writing chunks to the sink in strict template order until it finishes or
aborts; `run` returns the ordered chunks written before the outcome. -/
structure Renderer (w : Width) where
  run : ValuesMap → List (Str w) × RenderOutcome

/-- Modelled from the spec: the template parser (template_parser.h is not
under src/).  Per §7, parsing yields either a renderer or a non-empty
collection of structured errors with the first failure site first, which
`Load` indexes with `error()[0]`. -/
structure TemplateParser (w : Width) where
  Parse : Str w → Except (ErrorInfoTpl w × List (ErrorInfoTpl w)) (Renderer w)

/-- The state of `jinja2::TemplateImpl<CharT>` (template_impl.h, lines
318-324) that the load/render driver reads: the stored template text, the
template name and the optional compiled renderer (`m_renderer`, null until
a successful `Load`).  The environment and settings pointers feed only the
globals plumbing, which is external to the excerpt. -/
structure TemplateImpl (w : Width) where
  template : Str w
  templateName : String
  renderer : Option (Renderer w)

/-- `GenericStreamWriter::WriteBuffer` (template_impl.h, lines 58-61):
append the chunk to the caller's string. -/
def GenericStreamWriter.WriteBuffer {w : Width} (os : Str w) (chunk : Str w) : Str w :=
  strAppend os chunk

/-- `TemplateImpl::Load` (template_impl.h, lines 137-149): store the text,
default the name to `noname.j2tpl`, parse; on failure return the first
parser error, on success install the renderer and return no error. -/
def TemplateImpl.Load {w : Width} (parser : TemplateParser w) (t : TemplateImpl w)
    (tpl : Str w) (tplName : String) : TemplateImpl w × Option (ErrorInfoTpl w) :=
  let name := if tplName = "" then "noname.j2tpl" else tplName
  let t1 : TemplateImpl w := { t with template := tpl, templateName := name }
  match parser.Parse tpl with
  | .error errs => (t1, some errs.1)
  | .ok r => ({ t1 with renderer := some r }, none)

/-- `TemplateImpl::Render` (template_impl.h, lines 151-219): without a
renderer, fail with `TemplateNotParsed` at line 1, column 1 of
`<unknown file>`; otherwise run the renderer with a
`GenericStreamWriter` appending to the caller's string, convert a caught
engine error of either width to the template's width, and convert a caught
host exception to `UnexpectedException` at the template's name with the
exception message pushed onto the extra params.  The returned pair is the
final content of the output string `os` and the optional error. -/
def TemplateImpl.Render {w : Width} (t : TemplateImpl w) (os : Str w)
    (params : ValuesMap) : Str w × Option (ErrorInfoTpl w) :=
  match t.renderer with
  | none =>
      (os, some { code := .TemplateNotParsed
                  srcLoc := { fileName := "<unknown file>", line := 1, col := 1 }
                  locationDescr := strEmpty w
                  extraParams := [] })
  | some r =>
      let res := r.run params
      let os2 := res.1.foldl GenericStreamWriter.WriteBuffer os
      match res.2 with
      | .ok => (os2, none)
      | .engineErrorN e => (os2, some (ErrorConverter.Convert w e))
      | .engineErrorW e => (os2, some (ErrorConverter.Convert w e))
      | .hostException msg =>
          (os2, some { code := .UnexpectedException
                       srcLoc := { fileName := t.templateName, line := 1, col := 1 }
                       locationDescr := strEmpty w
                       extraParams := [Value.vstring msg] })

/-- Concatenation of the chunks a renderer wrote, in order. -/
def strConcat {w : Width} (chunks : List (Str w)) : Str w :=
  chunks.foldl strAppend (strEmpty w)

theorem strAppend_assoc {w : Width} (a b c : Str w) :
    strAppend (strAppend a b) c = strAppend a (strAppend b c) := by
  cases w with
  | narrow => exact String.append_assoc a b c
  | wide => exact congrArg WideString.mk (String.append_assoc a.chars b.chars c.chars)

theorem strAppend_strEmpty {w : Width} (a : Str w) :
    strAppend a (strEmpty w) = a := by
  cases w with
  | narrow => exact String.append_empty a
  | wide => exact congrArg WideString.mk (String.append_empty a.chars)

theorem strEmpty_strAppend {w : Width} (a : Str w) :
    strAppend (strEmpty w) a = a := by
  cases w with
  | narrow => exact String.empty_append a
  | wide => exact congrArg WideString.mk (String.empty_append a.chars)

theorem foldl_strAppend_eq {w : Width} (chunks : List (Str w)) (a : Str w) :
    chunks.foldl strAppend a = strAppend a (strConcat chunks) := by
  induction chunks generalizing a with
  | nil => exact (strAppend_strEmpty a).symm
  | cons c cs ih =>
      show List.foldl strAppend (strAppend a c) cs
        = strAppend a (List.foldl strAppend (strAppend (strEmpty w) c) cs)
      rw [strEmpty_strAppend, ih (strAppend a c), ih c, strAppend_assoc]

theorem foldl_writeBuffer_eq {w : Width} (chunks : List (Str w)) (os : Str w) :
    chunks.foldl GenericStreamWriter.WriteBuffer os = strAppend os (strConcat chunks) :=
  foldl_strAppend_eq chunks os

/-- C3: converting an error payload between the narrow and the wide form
preserves the error code, the source location and the extra-params list
and transcodes the location description; converting to the same width is
the identity; and the cross-width conversions are mutually inverse, so no
field is lost. -/
theorem error_converter_lossless :
    (∀ (w : Width) (e : ErrorInfoTpl w), ErrorConverter.Convert w e = e) ∧
    (∀ e : ErrorInfoTpl .wide,
      (ErrorConverter.Convert .narrow e).code = e.code ∧
      (ErrorConverter.Convert .narrow e).srcLoc = e.srcLoc ∧
      (ErrorConverter.Convert .narrow e).locationDescr
        = ConvertString .narrow e.locationDescr ∧
      (ErrorConverter.Convert .narrow e).extraParams = e.extraParams) ∧
    (∀ e : ErrorInfoTpl .narrow,
      (ErrorConverter.Convert .wide e).code = e.code ∧
      (ErrorConverter.Convert .wide e).srcLoc = e.srcLoc ∧
      (ErrorConverter.Convert .wide e).locationDescr
        = ConvertString .wide e.locationDescr ∧
      (ErrorConverter.Convert .wide e).extraParams = e.extraParams) ∧
    (∀ e : ErrorInfoTpl .wide,
      ErrorConverter.Convert .wide (ErrorConverter.Convert .narrow e) = e) ∧
    (∀ e : ErrorInfoTpl .narrow,
      ErrorConverter.Convert .narrow (ErrorConverter.Convert .wide e) = e) := by
  refine ⟨fun w e => ?_, fun e => ⟨rfl, rfl, rfl, rfl⟩,
    fun e => ⟨rfl, rfl, rfl, rfl⟩, fun e => rfl, fun e => rfl⟩
  cases w <;> rfl

/-- C7: the `EmptyValue` conversion operator yields the default of every
target type: `false` for booleans, the empty string for strings, zero for
integers. -/
theorem empty_value_coerces_to_defaults :
    (∀ e : EmptyValue, e.convertTo Bool = false) ∧
    (∀ e : EmptyValue, e.convertTo String = "") ∧
    (∀ e : EmptyValue, e.convertTo Int = 0) :=
  ⟨fun _ => rfl, fun _ => rfl, fun _ => rfl⟩

/-- C8: a `UserCallable` consists exactly of an invocation function from a
call-params bundle to a `Value` plus an ordered list of argument
descriptors; each descriptor consists exactly of a name, a mandatory flag
and a default value; each call-params bundle consists exactly of the
matched args map, the extra positional args, the extra named args, the
scope/context handle and the parsed flag. -/
theorem callable_descriptor_shape :
    (∀ uc : UserCallable,
      uc = { callable := uc.callable, argsInfo := uc.argsInfo }) ∧
    (∀ a : ArgInfo, a = ArgInfo.mk a.paramName a.isMandatory a.defValue) ∧
    (∀ p : UserCallableParams,
      p = { args := p.args, extraPosArgs := p.extraPosArgs,
            extraKwArgs := p.extraKwArgs, context := p.context,
            paramsParsed := p.paramsParsed }) := by
  refine ⟨fun uc => rfl, fun a => ?_, fun p => rfl⟩
  cases a
  rfl

/-- C9: a default-constructed `GenericMap` (no accessor) answers every
query with the neutral result: `HasValue` is false for every name,
`GetSize` is 0, `GetKeys` is empty, `GetValueByName` is the empty value
for every name. -/
theorem default_generic_map_neutral (name : String) :
    GenericMap.mkDefault.HasValue name = false ∧
    GenericMap.mkDefault.GetSize = 0 ∧
    GenericMap.mkDefault.GetKeys = [] ∧
    GenericMap.mkDefault.GetValueByName name = Value.empty :=
  ⟨rfl, rfl, rfl, rfl⟩

/-- C10: `isList` is true exactly on the `ValuesList` and `GenericList`
variants and `isMap` exactly on the `ValuesMap` and `GenericMap` variants,
while `asList`/`asMap` succeed only on the plain `ValuesList`/`ValuesMap`
variant and throw on every other variant, including the generic one whose
is-test is true. -/
theorem is_tests_vs_as_accessors (v : Value) :
    (v.isList = true ↔ (∃ l, v = .vlist l) ∨ (∃ g, v = .vgenericList g)) ∧
    (v.isMap = true ↔ (∃ m, v = .vmap m) ∨ (∃ g, v = .vgenericMap g)) ∧
    ((v.asList).isSome = true ↔ ∃ l, v = .vlist l) ∧
    ((v.asMap).isSome = true ↔ ∃ m, v = .vmap m) ∧
    (∀ l, v.asList = some l → v = .vlist l) ∧
    (∀ m, v.asMap = some m → v = .vmap m) ∧
    (∀ g, v = .vgenericList g → v.isList = true ∧ v.asList = none) ∧
    (∀ g, v = .vgenericMap g → v.isMap = true ∧ v.asMap = none) := by
  cases v <;>
    simp [Value.isList, Value.isMap, Value.asList, Value.asMap]

/-- The seventh conjunct of the variant theorem at a concrete host-backed
list: the is-test answers true while the accessor refuses. -/
theorem is_tests_vs_as_accessors_witness :
    (Value.vgenericList (GenericList.mk none)).isList = true ∧
    (Value.vgenericList (GenericList.mk none)).asList = none :=
  (is_tests_vs_as_accessors
    (Value.vgenericList (GenericList.mk none))).2.2.2.2.2.2.1 (GenericList.mk none) rfl

/-- C1: when an unexpected host exception (not an engine error object)
escapes during rendering, `Render` does not propagate it but returns a
structured error with code `UnexpectedException` whose extra-params list
contains the underlying exception message as a `Value`. -/
theorem render_unexpected_exception {w : Width} (t : TemplateImpl w)
    (r : Renderer w) (os : Str w) (params : ValuesMap) (chunks : List (Str w))
    (msg : String) (hr : t.renderer = some r)
    (hrun : r.run params = (chunks, RenderOutcome.hostException msg)) :
    ∃ e : ErrorInfoTpl w, (t.Render os params).2 = some e ∧
      e.code = ErrorCode.UnexpectedException ∧
      Value.vstring msg ∈ e.extraParams := by
  unfold TemplateImpl.Render
  rw [hr]
  simp only [hrun]
  exact ⟨_, rfl, rfl, List.mem_singleton.mpr rfl⟩

/-- A renderer that writes one chunk and then lets a host exception with
message `boom` escape. -/
def throwingRenderer : Renderer .narrow :=
  ⟨fun _ => (["partial"], RenderOutcome.hostException "boom")⟩

/-- A loaded template whose renderer is `throwingRenderer`. -/
def throwingTemplate : TemplateImpl .narrow :=
  { template := "", templateName := "t.j2tpl", renderer := some throwingRenderer }

/-- The exception-conversion theorem applied to a concrete template whose
renderer raises a host exception with message `boom`. -/
theorem render_unexpected_exception_witness :
    ∃ e : ErrorInfoTpl .narrow, (throwingTemplate.Render "" []).2 = some e ∧
      e.code = ErrorCode.UnexpectedException ∧
      Value.vstring "boom" ∈ e.extraParams :=
  render_unexpected_exception throwingTemplate throwingRenderer "" [] ["partial"]
    "boom" rfl rfl

/-- C2: on a template with no installed renderer (no previous successful
`Load`), `Render` writes nothing to the output string and returns a
structured `TemplateNotParsed` error located at line 1, column 1 of
`<unknown file>`. -/
theorem render_template_not_parsed {w : Width} (t : TemplateImpl w)
    (os : Str w) (params : ValuesMap) (h : t.renderer = none) :
    (t.Render os params).1 = os ∧
    ∃ e : ErrorInfoTpl w, (t.Render os params).2 = some e ∧
      e.code = ErrorCode.TemplateNotParsed ∧
      e.srcLoc = { fileName := "<unknown file>", line := 1, col := 1 } := by
  unfold TemplateImpl.Render
  rw [h]
  exact ⟨rfl, _, rfl, rfl, rfl⟩

/-- A freshly constructed template: nothing loaded, no renderer. -/
def freshTemplate : TemplateImpl .narrow :=
  { template := "", templateName := "", renderer := none }

/-- The not-parsed theorem applied to a fresh template with a non-empty
output string, showing the string is left untouched. -/
theorem render_template_not_parsed_witness :
    (freshTemplate.Render "kept" []).1 = "kept" ∧
    ∃ e : ErrorInfoTpl .narrow, (freshTemplate.Render "kept" []).2 = some e ∧
      e.code = ErrorCode.TemplateNotParsed ∧
      e.srcLoc = { fileName := "<unknown file>", line := 1, col := 1 } :=
  render_template_not_parsed freshTemplate "kept" [] rfl

/-- C4: reading an absent entry yields the `Empty` value rather than an
error, both for the args map of a call-params bundle (`operator[]`) and
for a `GenericMap` whose item is absent, given the documented accessor
contract that absent items are answered with an empty `Value`. -/
theorem absent_entry_yields_empty (p : UserCallableParams) (gm : GenericMap)
    (name : String) (hp : mapFind p.args name = none)
    (hacc : ∀ a, gm.accessor = some a → a.Conforms)
    (habs : gm.HasValue name = false) :
    p.getParam name = Value.empty ∧ gm.GetValueByName name = Value.empty := by
  constructor
  · unfold UserCallableParams.getParam
    rw [hp]
  · cases gm with
    | mk acc =>
        cases acc with
        | none => rfl
        | some a => exact hacc a rfl name habs

/-- The absent-entry theorem applied to an empty bundle and a
default-constructed map at key `missing`. -/
theorem absent_entry_yields_empty_witness :
    UserCallableParams.getParam
        { args := [], extraPosArgs := Value.empty, extraKwArgs := Value.empty,
          context := Value.empty } "missing" = Value.empty ∧
    GenericMap.GetValueByName (GenericMap.mk none) "missing" = Value.empty :=
  absent_entry_yields_empty
    { args := [], extraPosArgs := Value.empty, extraKwArgs := Value.empty,
      context := Value.empty }
    (GenericMap.mk none) "missing" rfl (fun _ h => nomatch h) rfl

/-- C5: when the parse of the template source fails, `Load` aborts — the
renderer is left as it was — and returns exactly one structured error,
the first failure the parsing reported; when the parse succeeds, `Load`
returns no error and installs the parsed renderer. -/
theorem load_first_error_or_install {w : Width} (tp : TemplateParser w)
    (t : TemplateImpl w) (tpl : Str w) (tplName : String) :
    (∀ e rest, tp.Parse tpl = .error (e, rest) →
      (TemplateImpl.Load tp t tpl tplName).2 = some e ∧
      (TemplateImpl.Load tp t tpl tplName).1.renderer = t.renderer) ∧
    (∀ r, tp.Parse tpl = .ok r →
      (TemplateImpl.Load tp t tpl tplName).2 = none ∧
      (TemplateImpl.Load tp t tpl tplName).1.renderer = some r) := by
  constructor
  · intro e rest herr
    unfold TemplateImpl.Load
    rw [herr]
    exact ⟨rfl, rfl⟩
  · intro r hok
    unfold TemplateImpl.Load
    rw [hok]
    exact ⟨rfl, rfl⟩

/-- A concrete syntax error, used as the sole failure of `failingParsing`. -/
def firstSyntaxError : ErrorInfoTpl .narrow :=
  { code := ErrorCode.SyntaxError
    srcLoc := { fileName := "bad.j2tpl", line := 3, col := 7 }
    locationDescr := ""
    extraParams := [] }

/-- A parsing model that always fails with `firstSyntaxError`. -/
def failingParsing : TemplateParser .narrow :=
  ⟨fun _ => .error (firstSyntaxError, [])⟩

/-- A parsing model that always succeeds with `throwingRenderer`. -/
def succeedingParsing : TemplateParser .narrow :=
  ⟨fun _ => .ok throwingRenderer⟩

/-- The load theorem applied to both a failing and a succeeding concrete
parse of a fresh template. -/
theorem load_first_error_or_install_witness :
    (TemplateImpl.Load failingParsing freshTemplate "bad source" "bad.j2tpl").2
        = some firstSyntaxError ∧
    (TemplateImpl.Load succeedingParsing freshTemplate "ok" "ok.j2tpl").1.renderer
        = some throwingRenderer :=
  ⟨((load_first_error_or_install failingParsing freshTemplate "bad source" "bad.j2tpl").1
      firstSyntaxError [] rfl).1,
   ((load_first_error_or_install succeedingParsing freshTemplate "ok" "ok.j2tpl").2
      throwingRenderer rfl).2⟩

/-- C6: when `Render` returns an error after the renderer ran, the output
string still holds everything written before the failure: it is exactly
the caller's original string extended, in order, by every chunk the
renderer wrote — nothing is rolled back or cleared. -/
theorem render_keeps_partial_output {w : Width} (t : TemplateImpl w)
    (r : Renderer w) (os : Str w) (params : ValuesMap) (e : ErrorInfoTpl w)
    (hr : t.renderer = some r)
    (herr : (t.Render os params).2 = some e) :
    (t.Render os params).1 = strAppend os (strConcat (r.run params).1) := by
  unfold TemplateImpl.Render at herr ⊢
  rw [hr] at herr ⊢
  rcases hrun : r.run params with ⟨chunks, outcome⟩
  simp only [hrun] at herr ⊢
  cases outcome with
  | ok => exact absurd herr (by simp)
  | engineErrorN e2 => exact foldl_writeBuffer_eq chunks os
  | engineErrorW e2 => exact foldl_writeBuffer_eq chunks os
  | hostException msg => exact foldl_writeBuffer_eq chunks os

/-- The no-rollback theorem applied to the throwing template: the chunk
written before the host exception survives in the output. -/
theorem render_keeps_partial_output_witness :
    (throwingTemplate.Render "pre:" []).1
      = strAppend "pre:" (strConcat (throwingRenderer.run []).1) :=
  render_keeps_partial_output throwingTemplate throwingRenderer "pre:" []
    { code := ErrorCode.UnexpectedException
      srcLoc := { fileName := "t.j2tpl", line := 1, col := 1 }
      locationDescr := ""
      extraParams := [Value.vstring "boom"] }
    rfl rfl

end Jinja2
